import Mathlib

/-!
Verification of the base-python scaffold template (src/main.py and
src/routes/health.py) of the Simple-Ai-IDE repository.

The program is a minimal HTTP application: a root greeting endpoint, a
health sub-router with a liveness endpoint (status plus uptime) and a
readiness endpoint, a permissive CORS middleware configuration, and a
startup step that resolves the listening port from the PORT environment
variable via Python's int() builtin.

Modelling choices: wall-clock readings (Python time.time()) are modelled
as exact rational numbers; JSON responses are a small inductive type
keeping field order; handlers are pure functions of the server state (the
module-level start_time), the ambient process environment and the current
clock reading, returning the response together with the (unchanged)
state, which is the state-passing translation of the Python coroutines
(they contain no assignment).
-/

namespace SimpleAide

/-- JSON values as produced by the route handlers; objects keep the field
order of the Python dict literals in the source. -/
inductive Json : Type where
  | str (s : String)
  | num (q : ℚ)
  | bool (b : Bool)
  | obj (fields : List (String × Json))

/-- Keys of a JSON object, in order; non-objects have no keys. -/
def Json.keys : Json → List String
  | .obj fields => fields.map Prod.fst
  | _ => []

/-- Field lookup in a JSON object. -/
def Json.lookup : Json → String → Option Json
  | .obj fields, k => List.lookup k fields
  | _, _ => none

/-- Server state: the single module-level variable of routes/health.py,
`start_time = time.time()`, captured once when the module is imported. -/
structure ServerState where
  start_time : ℚ

/-- Initialization captures the wall clock at process start into
`start_time` (line `start_time = time.time()` of routes/health.py). -/
def initState (clockAtStart : ℚ) : ServerState := ⟨clockAtStart⟩

/-- Handler of GET /health/ (routes/health.py, `health`): returns
`{"status": "healthy", "uptime": time.time() - start_time}`, where `now`
is the clock reading taken during the call. -/
def health (st : ServerState) (now : ℚ) : Json :=
  .obj [("status", .str "healthy"), ("uptime", .num (now - st.start_time))]

/-- Handler of GET /health/ready (routes/health.py, `ready`): returns
`{"ready": True}`. -/
def ready : Json := .obj [("ready", .bool true)]

/-- Handler of GET / (main.py, `root`): returns
`{"message": "Welcome to <project name>"}` where the project name is the
value substituted for the template placeholder at scaffold generation. -/
def root (projectName : String) : Json :=
  .obj [("message", .str ("Welcome to " ++ projectName))]

/-- Requests routable to the three handlers of the scaffold. -/
inductive Request : Type where
  | root
  | health
  | ready

/-- Dispatch of one request. The Python handlers close over the module
globals and never assign, so the state-passing translation returns the
state unchanged; `env` is the ambient process environment, which none of
the handlers read (only the `__main__` block reads PORT). -/
def handle (projectName : String) (_env : List (String × String))
    (st : ServerState) (now : ℚ) : Request → Json × ServerState
  | Request.root => (root projectName, st)
  | Request.health => (health st now, st)
  | Request.ready => (ready, st)

/-- State after serving a sequence of requests, each with its own clock
reading, starting from state `st`. -/
def runTrace (projectName : String) (env : List (String × String)) :
    ServerState → List (ℚ × Request) → ServerState
  | st, [] => st
  | st, (now, r) :: rest =>
      runTrace projectName env (handle projectName env st now r).2 rest

/-- Whitespace characters stripped by Python's int() before parsing. -/
def isPySpace (c : Char) : Bool :=
  c = ' ' || c = '\t' || c = '\n' || c = '\r' || c = '\x0b' || c = '\x0c'

/-- Continuation of the digit part of a base-10 integer literal as
accepted by Python's int(): further digits, with single underscores
allowed only between digits (ASCII digits modelled). -/
def digitPartLoop : Nat → List Char → Option Nat
  | acc, [] => some acc
  | acc, '_' :: c :: rest =>
      if c.isDigit then digitPartLoop (acc * 10 + (c.toNat - 48)) rest else none
  | acc, c :: rest =>
      if c.isDigit then digitPartLoop (acc * 10 + (c.toNat - 48)) rest else none

/-- Digit part of a base-10 integer literal: non-empty, starts with a
digit. -/
def parseDigitPart : List Char → Option Nat
  | [] => none
  | c :: rest => if c.isDigit then digitPartLoop (c.toNat - 48) rest else none

/-- Python's `int(s)` for a string argument, base 10: optional
surrounding whitespace, optional single sign, non-empty digit part;
returns none where the builtin raises ValueError. -/
def pyIntOfString (s : String) : Option Int :=
  let cs := ((s.toList.dropWhile isPySpace).reverse.dropWhile isPySpace).reverse
  match cs with
  | '+' :: rest => (parseDigitPart rest).map Int.ofNat
  | '-' :: rest => (parseDigitPart rest).map (fun n => -(n : ℤ))
  | rest => (parseDigitPart rest).map Int.ofNat

/-- Startup port resolution, `int(os.getenv("PORT", <default>))` in
main.py: when PORT is unset, os.getenv yields the build-time default (an
integer after template substitution) and int() returns it unchanged;
when PORT is set, its string value is parsed, and an unparsable value
raises ValueError, modelled as the error case. -/
def resolvePort (env : Option String) (dflt : ℤ) : Except String ℤ :=
  match env with
  | none => .ok dflt
  | some s =>
      match pyIntOfString s with
      | some n => .ok n
      | none => .error "ValueError: invalid literal for int() with base 10"

/-- CORS middleware configuration record, with the four keyword arguments
passed to app.add_middleware in main.py. -/
structure CORSConfig where
  allow_origins : List String
  allow_credentials : Bool
  allow_methods : List String
  allow_headers : List String

/-- Configuration installed by main.py:
allow_origins=["*"], allow_credentials=True, allow_methods=["*"],
allow_headers=["*"]. -/
def corsConfig : CORSConfig := ⟨["*"], true, ["*"], ["*"]⟩

/-- Middleware matching semantics for origins: a list containing the
wildcard "*" matches every origin. -/
def allowsOrigin (c : CORSConfig) (o : String) : Bool :=
  c.allow_origins.contains "*" || c.allow_origins.contains o

/-- Middleware matching semantics for methods: wildcard matches all. -/
def allowsMethod (c : CORSConfig) (m : String) : Bool :=
  c.allow_methods.contains "*" || c.allow_methods.contains m

/-- Middleware matching semantics for headers: wildcard matches all. -/
def allowsHeader (c : CORSConfig) (h : String) : Bool :=
  c.allow_headers.contains "*" || c.allow_headers.contains h

/-- The uptime field of a health response is the clock reading of the
call minus the stored start time. -/
theorem health_lookup_uptime (st : ServerState) (now : ℚ) :
    (health st now).lookup "uptime" = some (.num (now - st.start_time)) := rfl

/-- The status field of a health response is the string "healthy". -/
theorem health_lookup_status (st : ServerState) (now : ℚ) :
    (health st now).lookup "status" = some (.str "healthy") := rfl

/-- C1: for two sequential calls to the GET /health/ handler within one
process lifetime (so the clock reading of the second call is at least
that of the first), the uptime in the second response is greater than or
equal to the uptime in the first response. -/
theorem C1_uptime_monotone (st : ServerState) (n1 n2 u1 u2 : ℚ)
    (hseq : n1 ≤ n2)
    (h1 : (health st n1).lookup "uptime" = some (.num u1))
    (h2 : (health st n2).lookup "uptime" = some (.num u2)) :
    u1 ≤ u2 := by
  rw [health_lookup_uptime] at h1 h2
  simp only [Option.some.injEq, Json.num.injEq] at h1 h2
  rw [← h1, ← h2]
  exact sub_le_sub_right hseq _

/-- Witness for C1 at start time 0 and clock readings 1 and 2. -/
theorem C1_uptime_monotone_witness : ((1 : ℚ) - 0) ≤ ((2 : ℚ) - 0) :=
  C1_uptime_monotone (initState 0) 1 2 (1 - 0) (2 - 0) (by norm_num) rfl rfl

/-- C2: startup port resolution fails (raises) exactly when the PORT
environment value is present and not a parsable integer; this is the
only fallible step of the embedded program (all handlers are total
functions). -/
theorem C2_port_error_iff (env : Option String) (dflt : ℤ) :
    (∃ e, resolvePort env dflt = .error e) ↔
      ∃ s, env = some s ∧ pyIntOfString s = none := by
  cases env with
  | none => simp [resolvePort]
  | some s => cases h : pyIntOfString s <;> simp [resolvePort, h]

/-- C3: every call to the GET /health/ handler returns a JSON object
whose keys are exactly "status" and "uptime", with status the string
"healthy" and uptime the elapsed time between process start and the
clock reading of the call. -/
theorem C3_health_response (p : String) (env : List (String × String))
    (t0 now : ℚ) :
    ((handle p env (initState t0) now Request.health).1).keys =
        ["status", "uptime"] ∧
    ((handle p env (initState t0) now Request.health).1).lookup "status" =
        some (.str "healthy") ∧
    ((handle p env (initState t0) now Request.health).1).lookup "uptime" =
        some (.num (now - t0)) :=
  ⟨rfl, rfl, rfl⟩

/-- C4: every call to the GET /health/ handler made at or after process
start returns a non-negative uptime. -/
theorem C4_uptime_nonneg (t0 now u : ℚ) (hstart : t0 ≤ now)
    (h : (health (initState t0) now).lookup "uptime" = some (.num u)) :
    0 ≤ u := by
  rw [health_lookup_uptime] at h
  simp only [Option.some.injEq, Json.num.injEq] at h
  rw [← h]
  simpa [initState] using sub_nonneg.mpr hstart

/-- Witness for C4 at start time 1 and clock reading 3. -/
theorem C4_uptime_nonneg_witness : (0 : ℚ) ≤ (3 : ℚ) - 1 :=
  C4_uptime_nonneg 1 3 (3 - 1) (by norm_num) rfl

/-- C5: the GET /health/ready handler returns exactly the ready-true
object for every project name, environment, server state and clock
reading: no gating logic depends on any state or input. -/
theorem C5_ready_unconditional (p : String) (env : List (String × String))
    (st : ServerState) (now : ℚ) :
    (handle p env st now Request.ready).1 = .obj [("ready", .bool true)] :=
  rfl

/-- C6: the GET / root handler returns the static greeting object
containing the project's display name and leaves the server state
unchanged, for every environment, state and clock reading. -/
theorem C6_root_static (p : String) (env : List (String × String))
    (st : ServerState) (now : ℚ) :
    (handle p env st now Request.root).1 =
        .obj [("message", .str ("Welcome to " ++ p))] ∧
    (handle p env st now Request.root).2 = st :=
  ⟨rfl, rfl⟩

/-- C7: the installed CORS configuration permits every origin, allows
credentials, permits every method and permits every header. -/
theorem C7_cors_permissive :
    (∀ o, allowsOrigin corsConfig o = true) ∧
    corsConfig.allow_credentials = true ∧
    (∀ m, allowsMethod corsConfig m = true) ∧
    (∀ h, allowsHeader corsConfig h = true) :=
  ⟨fun _ => rfl, rfl, fun _ => rfl, fun _ => rfl⟩

/-- C8: serving any sequence of requests leaves the server state equal to
the state captured at initialization, and each individual handler
returns its input state unchanged: the start timestamp is written once
at startup and read-only thereafter. -/
theorem C8_state_frame (p : String) (env : List (String × String))
    (t0 : ℚ) (trace : List (ℚ × Request)) :
    runTrace p env (initState t0) trace = initState t0 ∧
    ∀ st now r, (handle p env st now r).2 = st := by
  have hstep : ∀ st now r, (handle p env st now r).2 = st := by
    intro st now r; cases r <;> rfl
  refine ⟨?_, hstep⟩
  have hrun : ∀ st, runTrace p env st trace = st := by
    induction trace with
    | nil => intro st; rfl
    | cons hd tl ih =>
        intro st
        obtain ⟨now, r⟩ := hd
        rw [runTrace, hstep st now r]
        exact ih st
  exact hrun _

/-- C9: when PORT is absent the configured port is the build-time
default; when PORT is present and parses as an integer, the configured
port is that integer value. -/
theorem C9_port_resolution (dflt : ℤ) :
    resolvePort none dflt = .ok dflt ∧
    ∀ s n, pyIntOfString s = some n → resolvePort (some s) dflt = .ok n := by
  refine ⟨rfl, fun s n h => ?_⟩
  simp [resolvePort, h]

/-- Witness for C9 with default 8000 and PORT set to "8080". -/
theorem C9_port_resolution_witness :
    resolvePort none 8000 = .ok 8000 ∧
    resolvePort (some "8080") 8000 = .ok 8080 :=
  ⟨(C9_port_resolution 8000).1,
   (C9_port_resolution 8000).2 "8080" 8080 (by decide)⟩

/-- C10: the GET / root handler and the GET /health/ready handler are
deterministic: two invocations of the same scaffold (same project name)
with any environments, server states and clock readings produce
identical response bodies. -/
theorem C10_root_ready_deterministic (p1 p2 : String)
    (env1 env2 : List (String × String)) (st1 st2 : ServerState)
    (n1 n2 : ℚ) (hp : p1 = p2) :
    (handle p1 env1 st1 n1 Request.root).1 =
        (handle p2 env2 st2 n2 Request.root).1 ∧
    (handle p1 env1 st1 n1 Request.ready).1 =
        (handle p2 env2 st2 n2 Request.ready).1 := by
  subst hp; exact ⟨rfl, rfl⟩

/-- Witness for C10 comparing two invocations with different
environments, states and clock readings. -/
theorem C10_root_ready_deterministic_witness :
    (handle "app" [] (initState 0) 5 Request.root).1 =
        (handle "app" [("PORT", "9")] (initState 3) 7 Request.root).1 ∧
    (handle "app" [] (initState 0) 5 Request.ready).1 =
        (handle "app" [("PORT", "9")] (initState 3) 7 Request.ready).1 :=
  C10_root_ready_deterministic "app" "app" [] [("PORT", "9")]
    (initState 0) (initState 3) 5 7 rfl

end SimpleAide
